import Mathlib

/-!
Verification of the TripAdvisor scraping pipeline (src/scraper/tripadvisor.py,
src/utils/database.py) through a shallow embedding in Lean 4.

The embedding models:
  - a parsed HTML document as a rose tree of elements carrying tag, id,
    class attribute, href attribute and text (the pieces BeautifulSoup
    queries in the source touch);
  - BeautifulSoup's find / find_all on (tag, class) and (tag, id) queries,
    in document (preorder) order;
  - the field extractors TripAdvisorScraper._extract_hotel_info and
    TripAdvisorScraper._extract_reviews;
  - the paginator TripAdvisorScraper._generate_pagination_urls;
  - the tenacity retry loop wrapping TripAdvisorScraper._fetch_page_content;
  - the orchestration TripAdvisorScraper.scrape_hotel and
    TripAdvisorScraper.scrape_hotels_by_region;
  - TripAdvisorDataProcessor.clean_data / analyze_sentiment /
    generate_summary (pandas date and numeric parsing are external library
    behaviour, so they enter as function parameters);
  - Database.save_reviews over a list-of-rows store model.

Python exceptions are modelled with Except / Option; a try/except block
becomes a match on the fallible step inside it.  Missing dictionary keys and
pandas NaN cells are modelled with Option.
-/

/-! ## Document model (BeautifulSoup fragment used by the source) -/

/-- One HTML element's attributes and text, as the source queries them:
tag name, optional id attribute, optional raw class attribute string,
optional href attribute, and the element's text content. -/
structure NodeData where
  tag : String
  idAttr : Option String
  classAttr : Option String
  href : Option String
  text : String
deriving DecidableEq, Repr

/-- An HTML element with its children: a rose tree of `NodeData`. -/
inductive Node where
  | mk (data : NodeData) (children : List Node) : Node
deriving Repr

def Node.data : Node → NodeData
  | .mk d _ => d

def Node.children : Node → List Node
  | .mk _ cs => cs

mutual

/-- The subtree rooted at a node, in document (preorder) order. -/
def Node.subtree : Node → List Node
  | .mk d cs => .mk d cs :: subtreeList cs
  termination_by structural n => n

/-- All nodes of a forest, in document (preorder) order. -/
def subtreeList : List Node → List Node
  | [] => []
  | n :: ns => n.subtree ++ subtreeList ns
  termination_by structural l => l

end

/-! ### Python string primitives

Lean core's `String` functions are position-based and do not reduce inside
the kernel, so the handful of Python string operations the source uses are
implemented here structurally over `String.data : List Char` (ASCII
whitespace only, which is all the scraped strings contain). -/

/-- Whether `p` is a leading piece of `cs`. -/
def isPrefixL : List Char → List Char → Bool
  | [], _ => true
  | _ :: _, [] => false
  | p :: ps, c :: cs => p == c && isPrefixL ps cs

/-- Python's `s.split(sep)` for a nonempty `sep`, scanning left to right
over non-overlapping occurrences.  `fuel` bounds the recursion structurally;
every call site passes `length + 1`, which the scan never exhausts. -/
def splitOnGo (sep : List Char) : Nat → List Char → List Char →
    List (List Char)
  | 0, acc, rest => [acc.reverse ++ rest]
  | fuel + 1, acc, cs =>
    match cs with
    | [] => [acc.reverse]
    | c :: rest =>
      if isPrefixL sep cs then
        acc.reverse :: splitOnGo sep fuel [] (cs.drop sep.length)
      else splitOnGo sep fuel (c :: acc) rest

/-- Python's `s.split(sep)` (nonempty separator). -/
def pySplitOn (s sep : String) : List String :=
  (splitOnGo sep.data (s.data.length + 1) [] s.data).map String.mk

/-- Drop leading and trailing whitespace from a character list. -/
def trimL (cs : List Char) : List Char :=
  ((cs.dropWhile Char.isWhitespace).reverse.dropWhile Char.isWhitespace).reverse

/-- Python's `s.strip()`. -/
def pyStrip (s : String) : String :=
  String.mk (trimL s.data)

/-- Python's `s.lower()` (ASCII). -/
def pyLower (s : String) : String :=
  String.mk (s.data.map Char.toLower)

/-- Python's `s.replace(pat, repl)`: every non-overlapping occurrence. -/
def pyReplace (s pat repl : String) : String :=
  String.mk (List.intercalate repl.data (splitOnGo pat.data (s.data.length + 1) [] s.data))

/-- Python's `s.startswith(p)`. -/
def pyStartsWith (s p : String) : Bool :=
  isPrefixL p.data s.data

/-- Whether the character occurs in the string. -/
def strContainsChar (s : String) (c : Char) : Bool :=
  s.data.any (fun x => x == c)

/-- Python's `s[:n]`. -/
def pyTake (s : String) (n : Nat) : String :=
  String.mk (s.data.take n)

/-- Decimal digit accumulation; `none` on a non-digit. -/
def digitsValGo (acc : Nat) : List Char → Option Nat
  | [] => some acc
  | c :: rest =>
    if c.isDigit then digitsValGo (acc * 10 + (c.toNat - '0'.toNat)) rest
    else none

/-- Python's `int(s)` on a string: strip, optional sign, all-digit body,
else ValueError (`none`).  (Python's underscore separators and non-ASCII
digits never occur in the scraped strings and are not modelled.) -/
def pyToInt (s : String) : Option Int :=
  match trimL s.data with
  | [] => none
  | '-' :: rest =>
    match rest with
    | [] => none
    | _ :: _ => (digitsValGo 0 rest).map (fun n => -(n : Int))
  | '+' :: rest =>
    match rest with
    | [] => none
    | _ :: _ => (digitsValGo 0 rest).map (fun n => (n : Int))
  | cs => (digitsValGo 0 cs).map (fun n => (n : Int))

/-- Substring test, as Python's `pat in s` (used only with nonempty `pat`). -/
def containsSub (s pat : String) : Bool :=
  (pySplitOn s pat).length ≥ 2

/-- BeautifulSoup class matching: a query without spaces matches when it is
one of the element's class tokens; a query with spaces matches the raw class
attribute string exactly.  An element without a class attribute never
matches. -/
def matchClassQuery (q : String) (d : NodeData) : Bool :=
  match d.classAttr with
  | none => false
  | some s => if strContainsChar q ' ' then s == q else (pySplitOn s " ").contains q

/-- BeautifulSoup's `soup.find_all(tag, class_=q)`: every matching element of the forest in
document order. -/
def findAllTagClass (doc : List Node) (tag q : String) : List Node :=
  (subtreeList doc).filter (fun n => n.data.tag == tag && matchClassQuery q n.data)

/-- BeautifulSoup's `soup.find(tag, class_=q)`: the first matching element, if any. -/
def findTagClass (doc : List Node) (tag q : String) : Option Node :=
  (findAllTagClass doc tag q).head?

/-- BeautifulSoup's `soup.find(tag, id=v)`: the first element with the tag and id. -/
def findTagId (doc : List Node) (tag v : String) : Option Node :=
  ((subtreeList doc).filter
    (fun n => n.data.tag == tag && n.data.idAttr == some v)).head?

/-- BeautifulSoup's `soup.find(tag)`: the first element with the tag. -/
def findTag (doc : List Node) (tag : String) : Option Node :=
  ((subtreeList doc).filter (fun n => n.data.tag == tag)).head?

/-- Python's `str.split()` with no argument: split on whitespace runs,
dropping empty pieces. -/
def pyWsSplit (s : String) : List String :=
  (((splitOnGo [' '] (s.data.length + 1) []
      (s.data.map (fun c => if c.isWhitespace then ' ' else c))).filter
    (fun t => !t.isEmpty)).map String.mk)

/-! ## Field extraction: TripAdvisorScraper._extract_hotel_info -/

/-- The dictionary `_extract_hotel_info` builds; every key is assigned on
every control path, so the fields are plain strings. -/
structure HotelInfo where
  name : String
  location : String
  total_reviews : String
  rating : String
deriving DecidableEq, Repr

/-- Hotel-name fallback chain: `h1.QdLfr b d Pn`, default "N/A". -/
def hotelNameFallback (soup : List Node) : String :=
  match findTagClass soup "h1" "QdLfr b d Pn" with
  | some e => pyStrip e.data.text
  | none => "N/A"

/-- Reviewer-count text to count: first whitespace token with commas
stripped; the IndexError of `split()[0]` on empty text is caught by the
enclosing except, which sets "0". -/
def totalReviewsFromText (t : String) : String :=
  if containsSub (pyLower t) "reviews" then
    match (pyWsSplit t).head? with
    | some tok => pyReplace tok "," ""
    | none => "0"
  else "0"

/-- Embedding of `TripAdvisorScraper._extract_hotel_info` (src/scraper/tripadvisor.py,
lines 171-250): each field tries a primary locator, then a fallback, then a
fixed default. -/
def extractHotelInfo (soup : List Node) : HotelInfo :=
  let name :=
    match findTagId soup "h1" "HEADING" with
    | some e =>
        if pyStrip e.data.text ≠ "" then pyStrip e.data.text
        else hotelNameFallback soup
    | none => hotelNameFallback soup
  let location :=
    let elems := findAllTagClass soup "span" "biGQs _P pZUbB KxBGd"
    if elems.length > 1 then
      match elems.get? 1 with
      | some e => pyStrip e.data.text
      | none => "N/A"
    else
      match findTagClass soup "div" "AYHFM" with
      | some e => pyStrip e.data.text
      | none => "N/A"
  let totalReviews :=
    match findTagClass soup "span" "biGQs _P pZUbB KxBGd" with
    | some e => totalReviewsFromText e.data.text
    | none => "0"
  let rating :=
    match findTagClass soup "div" "grdwI P" with
    | some e => pyStrip e.data.text
    | none =>
        match findTagClass soup "span" "uwJeR P" with
        | some e => pyStrip e.data.text
        | none => "N/A"
  ⟨name, location, totalReviews, rating⟩

/-! ## Field extraction: TripAdvisorScraper._extract_reviews -/

/-- The per-review dictionary.  Each field is an `Option` because a Python
dict key is only present once assigned; `none` models a missing key (and,
once the rows enter a DataFrame, a NaN cell). -/
structure Review where
  title : Option String
  content : Option String
  reviewer : Option String
  date : Option String
  rating : Option String
deriving DecidableEq, Repr

/-- Python's `str(n / 10)` for an integer `n` (exact one-decimal float). -/
def pyDivTenStr (n : Int) : String :=
  (if n < 0 then "-" else "") ++ toString (n.natAbs / 10) ++ "." ++ toString (n.natAbs % 10)

/-- The bubble-rating class loop of `_extract_reviews`: scan the class
tokens; on a token starting with "bubble_" try `int(token.split('_')[1])/10`
(break on success, set "N/A" and continue on ValueError).  A loop that never
meets a "bubble_" token leaves the accumulator untouched — when that is
`none` the review dict ends without a rating key. -/
def bubbleLoop : List String → Option String → Option String
  | [], acc => acc
  | cls :: rest, acc =>
    if pyStartsWith cls "bubble_" then
      match pyToInt ((pySplitOn cls "_").getD 1 "") with
      | some n => some (pyDivTenStr n)
      | none => bubbleLoop rest (some "N/A")
    else bubbleLoop rest acc

/-- Reviewer/date fallback locators: `div.info_text pointer_cursor` and
`span.ratingDate` (with the literal "Reviewed" stripped), defaults "N/A". -/
def reviewerDateFallback (kids : List Node) : Option String × Option String :=
  let reviewer :=
    match findTagClass kids "div" "info_text pointer_cursor" with
    | some e => some (pyStrip e.data.text)
    | none => some "N/A"
  let date :=
    match findTagClass kids "span" "ratingDate" with
    | some e => some (pyStrip (pyReplace e.data.text "Reviewed" ""))
    | none => some "N/A"
  (reviewer, date)

/-- One review container's extraction (the loop body of `_extract_reviews`,
src/scraper/tripadvisor.py lines 276-366). -/
def extractReview (container : Node) : Review :=
  let kids := container.children
  let title :=
    match findTagClass kids "span" "JbGkU Cj" with
    | some e => some (pyStrip e.data.text)
    | none =>
        match findTagClass kids "span" "noQuotes" with
        | some e => some (pyStrip e.data.text)
        | none => some "N/A"
  let content :=
    match findTagClass kids "span" "orRIx Ci _a C" with
    | some e => some (pyStrip e.data.text)
    | none =>
        match findTagClass kids "p" "partial_entry" with
        | some e => some (pyStrip e.data.text)
        | none => some "N/A"
  let revDate :=
    match findTagClass kids "div" "tVWyV _Z o S4 H3 Ci" with
    | some e =>
        if containsSub e.data.text "wrote a review" then
          let parts := pySplitOn e.data.text "wrote a review"
          (some (pyStrip (parts.getD 0 "")), some (pyStrip (parts.getD 1 "")))
        else reviewerDateFallback kids
    | none => reviewerDateFallback kids
  let rating :=
    match findTagClass kids "div" "kmMXA _T Gi" with
    | some e =>
        match findTag e.children "title" with
        | some t => some (pyStrip (pyTake t.data.text 3))
        | none => some "N/A"
    | none =>
        match findTagClass kids "span" "ui_bubble_rating" with
        | some e =>
            match e.data.classAttr with
            | some s => bubbleLoop (pySplitOn s " ") none
            | none => some "N/A"
        | none => some "N/A"
  ⟨title, content, revDate.1, revDate.2, rating⟩

/-- Embedding of `TripAdvisorScraper._extract_reviews` (src/scraper/tripadvisor.py,
lines 252-371): primary container locator, fallback container locator,
empty list when neither matches. -/
def extractReviews (soup : List Node) : List Review :=
  let containers := findAllTagClass soup "div" "YibKl MC R2 Gi z Z BB pBbQr"
  let containers :=
    if containers.isEmpty then findAllTagClass soup "div" "review-container"
    else containers
  containers.map extractReview

/-! ## Paginator: TripAdvisorScraper._generate_pagination_urls -/

/-- Python's `range(start, stop, step)` for a positive step: the integers
`start, start+step, ...` strictly below `stop`. -/
def pyRange (start stop : Int) (step : Nat) : List Int :=
  if step = 0 then []
  else (List.range (((stop - start + step - 1).fdiv step).toNat)).map
    (fun k : Nat => start + (k : Int) * step)

/-- Embedding of `TripAdvisorScraper._generate_pagination_urls` (src/scraper/tripadvisor.py,
lines 373-409).  `total_reviews` arrives as a Python int (so `Int` here);
`reviews_per_page` is only ever the default 10, modelled as `Nat` — a zero
value would raise ZeroDivisionError, which the enclosing except turns into
`[base_url]`.  Python `//` is floor division, `Int.fdiv`. -/
def generatePaginationUrls (baseUrl : String) (totalReviews : Int)
    (reviewsPerPage : Nat) : List String :=
  if reviewsPerPage = 0 then [baseUrl]
  else
    let numPages0 : Int := (totalReviews + reviewsPerPage - 1).fdiv reviewsPerPage
    let numPages : Int := min numPages0 50
    let parts := pySplitOn baseUrl "Reviews-"
    if parts.length ≥ 2 then
      let firstPart := (parts.getD 0 "") ++ "Reviews-or"
      let secondPart := "-" ++ parts.getD 1 ""
      let offsets := pyRange reviewsPerPage (numPages * reviewsPerPage) reviewsPerPage
      baseUrl :: offsets.map (fun i => firstPart ++ toString i ++ secondPart)
    else [baseUrl]

/-! ## Fetcher: the tenacity retry loop on _fetch_page_content -/

/-- The exception classes the fetch can raise: requests-level exceptions and
the builtin ConnectionError (both listed in `retry_if_exception_type`), and
selenium exceptions (raised by the browser strategy, not listed). -/
inductive PyExc where
  | requestException
  | connectionError
  | seleniumException
deriving DecidableEq, Repr

/-- The predicate `retry_if_exception_type((requests.exceptions.RequestException,
ConnectionError)))`: which exception classes the decorator retries. -/
def isRetryableExc : PyExc → Bool
  | .requestException => true
  | .connectionError => true
  | .seleniumException => false

/-- tenacity's `wait_exponential(multiplier, min, max)` after the attempt
numbered `attemptNumber` (1-based): `max(min, min(multiplier * 2^n, max))`. -/
def waitExponential (multiplier minW maxW attemptNumber : Nat) : Nat :=
  max minW (min (multiplier * 2 ^ attemptNumber) maxW)

/-- The tenacity retry loop with `stop_after_attempt`: run attempt `n`; on
success return the payload with the backoff delays slept so far; on a
non-retryable exception re-raise at once; on a retryable exception sleep
`wait_exponential 1 4 60 n` and recurse while attempts remain (`fuel` is the
number of attempts still allowed after this one). -/
def runRetry (attempt : Nat → Except PyExc String) : Nat → Nat →
    Except PyExc String × List Nat
  | n, fuel =>
    match attempt n, fuel with
    | .ok s, _ => (.ok s, [])
    | .error e, 0 => (.error e, [])
    | .error e, fuel' + 1 =>
      if isRetryableExc e then
        let d := waitExponential 1 4 60 n
        let r := runRetry attempt (n + 1) fuel'
        (r.1, d :: r.2)
      else (.error e, [])

/-- The two fetch strategies selected at construction time
(`use_selenium`). -/
inductive FetchStrategy where
  | directHttp
  | seleniumBrowser
deriving DecidableEq, Repr

/-- The exception class a transport failure raises under each strategy: the
requests branch raises requests exceptions; the selenium branch re-raises
selenium exceptions (WebDriverException / TimeoutException). -/
def strategyExc : FetchStrategy → PyExc
  | .directHttp => .requestException
  | .seleniumBrowser => .seleniumException

/-- One attempt of `_fetch_page_content` under a strategy: `outcome n` is
the payload when attempt `n`'s transport succeeds, `none` when it fails. -/
def strategyAttempt (st : FetchStrategy) (outcome : Nat → Option String)
    (n : Nat) : Except PyExc String :=
  match outcome n with
  | some s => .ok s
  | none => .error (strategyExc st)

/-- Embedding of `_fetch_page_content` with its decorator (src/scraper/tripadvisor.py,
lines 126-169): `stop_after_attempt(5)` means attempt 1 plus at most 4
retries.  Returns the result and the list of backoff delays slept. -/
def fetchPageContent (st : FetchStrategy) (outcome : Nat → Option String) :
    Except PyExc String × List Nat :=
  runRetry (strategyAttempt st outcome) 1 4

/-! ## Orchestration: scrape_hotel and scrape_hotels_by_region -/

/-- Python's `int(s)` on a string: optional sign after stripped whitespace,
else ValueError (`none`). -/
def pyParseInt (s : String) : Option Int :=
  pyToInt s

/-- The pagination URLs `scrape_hotel` visits after the first page:
`_generate_pagination_urls`, then the `pagination_urls[:max_pages]` slice
(`Option Nat` models `max_pages=None`, and Python's `if max_pages:` is also
false at 0, so `some 0` does not truncate), then the `[1:]` drop of the
already-fetched first page. -/
def paginationRest (url : String) (total : Int) (maxPages : Option Nat) :
    List String :=
  let pages := generatePaginationUrls url total 10
  let pages :=
    match maxPages with
    | some m => if m = 0 then pages else pages.take m
    | none => pages
  pages.drop 1

/-- The per-page loop body of `scrape_hotel`: a page whose fetch raises is
caught by the inner except and contributes no reviews. -/
def pageReviews (fetch : String → Except PyExc (List Node)) (p : String) :
    List Review :=
  match fetch p with
  | .ok s => extractReviews s
  | .error _ => []

/-- Embedding of `TripAdvisorScraper.scrape_hotel` (src/scraper/tripadvisor.py, lines
411-486).  `fetch` is the already-retry-wrapped page fetch, which raises
when retries are exhausted.  The outer try/except converts any failure
(first fetch, or `int(hotel_info['total_reviews'])`) into the degraded
result `([], none)` — `none` models the empty dict `{}`.  The DataFrame
assembly only adds hotel columns and reorders them, so the result is
modelled as the review rows plus the hotel info. -/
def scrapeHotel (fetch : String → Except PyExc (List Node)) (url : String)
    (maxPages : Option Nat) : List Review × Option HotelInfo :=
  match fetch url with
  | .error _ => ([], none)
  | .ok soup =>
    let info := extractHotelInfo soup
    let revs0 := extractReviews soup
    match pyParseInt info.total_reviews with
    | none => ([], none)
    | some total =>
      (revs0 ++ (paginationRest url total maxPages).flatMap (pageReviews fetch),
       some info)

/-- Embedding of `TripAdvisorScraper.scrape_hotels_by_region` (src/scraper/tripadvisor.py,
lines 488-533): three ordered listing locators, slice to `max_hotels`, keep
only elements with an href, resolve hrefs starting with "/" against the
fixed origin; any exception (in particular a failed fetch) yields `[]`. -/
def scrapeHotelsByRegion (fetch : String → Except PyExc (List Node))
    (regionUrl : String) (maxHotels : Nat) : List String :=
  match fetch regionUrl with
  | .error _ => []
  | .ok soup =>
    let e1 := findAllTagClass soup "a" "property_title"
    let e2 := if e1.isEmpty then findAllTagClass soup "a" "review_count" else e1
    let e3 :=
      if e2.isEmpty then
        (findAllTagClass soup "div" "listing_title").filterMap
          (fun d => findTag d.children "a")
      else e2
    (e3.take maxHotels).filterMap (fun el =>
      match el.data.href with
      | some h =>
          if pyStartsWith h "/" then some ("https://www.tripadvisor.com" ++ h)
          else none
      | none => none)

/-! ## Normalizer: TripAdvisorDataProcessor.clean_data -/

/-- A review row after the two coercion steps of `clean_data` and before the
fills: `pd.to_datetime(..., errors="coerce")` and `pd.to_numeric(...,
errors="coerce")` have run, so `date` is a datetime-or-NaT and `rating` a
float-or-NaN.  Datetime values are opaque here (`Int`); only equality and
month formatting are used downstream. -/
structure ConvReview where
  title : Option String
  content : Option String
  reviewer : Option String
  date : Option Int
  rating : Option ℚ
deriving DecidableEq, Repr

/-- A review row after `clean_data`'s fills: title/content/reviewer filled
with their sentinels, rating filled with 0.0 (so no longer optional); the
date column is not filled and can stay NaT. -/
structure CleanedReview where
  title : String
  content : String
  reviewer : String
  date : Option Int
  rating : ℚ
deriving DecidableEq, Repr

/-- The coercion steps of `clean_data` on one row: a NaN cell stays
missing, a string cell goes through the (external, pandas) parser. -/
def convertRecord (parseDate : String → Option Int)
    (parseNum : String → Option ℚ) (r : Review) : ConvReview :=
  ⟨r.title, r.content, r.reviewer, r.date.bind parseDate, r.rating.bind parseNum⟩

/-- The dedup key of `drop_duplicates(subset=["reviewer", "date",
"content"])`, valued after the coercions (pandas compares the converted date
column, and treats NaN cells as equal to each other). -/
def dedupKey (r : ConvReview) : Option String × Option Int × Option String :=
  (r.reviewer, r.date, r.content)

/-- Pandas `drop_duplicates(keep="first")`: keep a row iff its key has not been
seen before, scanning left to right. -/
def dedupFirst : List ConvReview →
    List (Option String × Option Int × Option String) → List ConvReview
  | [], _ => []
  | r :: rs, seen =>
    if dedupKey r ∈ seen then dedupFirst rs seen
    else r :: dedupFirst rs (dedupKey r :: seen)

/-- The `fillna` step of `clean_data`: sentinels "No Title", "No Content",
"Anonymous", and 0.0 for the rating. -/
def fillRecord (r : ConvReview) : CleanedReview :=
  ⟨r.title.getD "No Title", r.content.getD "No Content",
   r.reviewer.getD "Anonymous", r.date, r.rating.getD 0⟩

/-- Embedding of `TripAdvisorDataProcessor.clean_data` (src/scraper/tripadvisor.py,
lines 555-594): empty short-circuit, date coercion, rating coercion,
first-wins dedup on (reviewer, date, content), sentinel fills. -/
def cleanData (parseDate : String → Option Int) (parseNum : String → Option ℚ)
    (records : List Review) : List CleanedReview :=
  if records.isEmpty then []
  else (dedupFirst (records.map (convertRecord parseDate parseNum)) []).map fillRecord

/-! ## Sentiment: TripAdvisorDataProcessor.analyze_sentiment -/

/-- The inner `get_sentiment` of `analyze_sentiment`
(src/scraper/tripadvisor.py, lines 615-624): NaN → Unknown, then the
rating-threshold ladder.  `none` models a NaN/missing rating. -/
def getSentiment (rating : Option ℚ) : String :=
  match rating with
  | none => "Unknown"
  | some r => if r ≥ 4 then "Positive" else if r ≥ 3 then "Neutral" else "Negative"

/-! ## Summary: TripAdvisorDataProcessor.generate_summary -/

/-- A row of the DataFrame `generate_summary` consumes: a rating column
(float-or-NaN), a sentiment column, a date column (datetime-or-NaT). -/
structure SummaryRecord where
  rating : Option ℚ
  sentiment : String
  date : Option Int
deriving DecidableEq, Repr

/-- The summary dictionary.  `average_rating` is `Option ℚ` because pandas'
`Series.mean()` of an all-NaN column is NaN, modelled `none`; the two count
dictionaries are modelled extensionally as count functions (an absent key
and a zero count coincide). -/
structure Summary where
  total_reviews : Nat
  average_rating : Option ℚ
  sentiment_counts : String → Nat
  reviews_by_month : String → Nat

/-- Embedding of `TripAdvisorDataProcessor.generate_summary` (src/scraper/tripadvisor.py,
lines 632-684) on a DataFrame that has the rating/sentiment/date columns:
empty short-circuit with literal zeros, then row count, NaN-skipping mean,
sentiment value counts, and month counts over the rows whose date parsed.
`fmtMonth` is pandas' `strftime("%Y-%m")`, an external function of the
opaque datetime values. -/
def generateSummary (fmtMonth : Int → String) (records : List SummaryRecord) :
    Summary :=
  if records.isEmpty then
    ⟨0, some 0, fun _ => 0, fun _ => 0⟩
  else
    let ratings := records.filterMap (fun r => r.rating)
    { total_reviews := records.length
      average_rating :=
        if ratings.isEmpty then none else some (ratings.sum / ratings.length)
      sentiment_counts := fun l => (records.map (fun r => r.sentiment)).count l
      reviews_by_month := fun m =>
        ((records.filterMap (fun r => r.date)).map fmtMonth).count m }

/-! ## Persistence: Database.save_reviews -/

/-- A stored row of the `reviews` table, with the columns `save_reviews`
writes. -/
structure DbReviewRow where
  hotel_id : Int
  title : String
  content : String
  reviewer : String
  rating : String
  date : String
  sentiment : String
deriving DecidableEq, Repr

/-- The review dictionary `save_reviews` reads with `.get(key, default)`;
`none` models an absent key.  (The source's `.get("rating", 0)` default is
the integer 0; it is modelled as the string "0" since the store model keeps
one column type.) -/
structure PyReviewDict where
  title : Option String
  content : Option String
  reviewer : Option String
  rating : Option String
  date : Option String
  sentiment : Option String
deriving DecidableEq, Repr

/-- The per-review duplicate check of `save_reviews`: a row with the same
(hotel_id, reviewer, date, content) already exists. -/
def reviewExists (db : List DbReviewRow) (hid : Int) (r : PyReviewDict) : Bool :=
  db.any (fun row =>
    row.hotel_id == hid && row.reviewer == r.reviewer.getD "" &&
    row.date == r.date.getD "" && row.content == r.content.getD "")

/-- One iteration of the insert loop: skip when the duplicate check hits,
else append the new row (the SELECT sees the connection's own uncommitted
inserts, so the store threads through the loop). -/
def insertReview (hid : Int) (db : List DbReviewRow) (r : PyReviewDict) :
    List DbReviewRow :=
  if reviewExists db hid r then db
  else db ++ [⟨hid, r.title.getD "", r.content.getD "", r.reviewer.getD "",
    r.rating.getD "0", r.date.getD "", r.sentiment.getD ""⟩]

/-- Embedding of `Database.save_reviews` (src/utils/database.py, lines 156-220): an empty
batch returns False before touching the store; otherwise the insert loop
runs and commits, returning True — unless a database exception fires
(`dbFailure`), in which case the except returns False and the connection
closes without committing, leaving the store unchanged. -/
def saveReviews (hid : Int) (reviews : List PyReviewDict)
    (db : List DbReviewRow) (dbFailure : Bool) : Bool × List DbReviewRow :=
  if reviews.isEmpty then (false, db)
  else if dbFailure then (false, db)
  else (true, reviews.foldl (fun acc r => insertReview hid acc r) db)

/-! ## Theorems for the claims -/

/-- The C1 failing input: one review container whose rating extraction
reaches the bubble fallback — a `span.ui_bubble_rating` whose class
attribute has no token starting with "bubble_" — so the for-loop body never
runs and `review["rating"]` is never assigned. -/
def ratingGapDoc : List Node :=
  [.mk ⟨"div", none, some "YibKl MC R2 Gi z Z BB pBbQr", none, ""⟩
    [.mk ⟨"span", none, some "ui_bubble_rating", none, ""⟩ []]]

/-- C1: the extractor does return a review dictionary here without raising,
and the other four fields carry their "N/A" defaults — but the rating key is
missing (`none`), contradicting "every review dictionary returned by the
review extractor carries a value for every field".  Every sibling branch of
the source sets `review["rating"] = "N/A"`, so the fall-through of the
bubble-class loop is a slip in the code, not intended behaviour. -/
theorem C1_extractor_rating_key_missing :
    extractReviews ratingGapDoc =
      [⟨some "N/A", some "N/A", some "N/A", some "N/A", none⟩] ∧
    (extractReviews ratingGapDoc).map Review.rating = [none] := by
  constructor
  · rfl
  · rfl

/-- C4: the derived sentiment label is Positive iff the rating is ≥ 4,
Neutral iff in [3, 4), Negative iff < 3 and non-null, Unknown iff null
(`analyze_sentiment`'s `get_sentiment`). -/
theorem C4_sentiment_thresholds (r : Option ℚ) :
    (getSentiment r = "Positive" ↔ ∃ x, r = some x ∧ 4 ≤ x) ∧
    (getSentiment r = "Neutral" ↔ ∃ x, r = some x ∧ 3 ≤ x ∧ x < 4) ∧
    (getSentiment r = "Negative" ↔ ∃ x, r = some x ∧ x < 3) ∧
    (getSentiment r = "Unknown" ↔ r = none) := by
  cases r with
  | none => simp [getSentiment]
  | some x =>
    simp only [getSentiment, Option.some.injEq, ge_iff_le]
    by_cases h4 : (4 : ℚ) ≤ x
    · have h3 : (3 : ℚ) ≤ x := le_trans (by norm_num) h4
      rw [if_pos h4]
      refine ⟨⟨fun _ => ⟨x, rfl, h4⟩, fun _ => rfl⟩, ?_, ?_, ?_⟩
      · constructor
        · intro h; exact absurd h (by decide)
        · rintro ⟨y, rfl, -, hlt⟩; exact absurd h4 (not_le.mpr hlt)
      · constructor
        · intro h; exact absurd h (by decide)
        · rintro ⟨y, rfl, hlt⟩; exact absurd (lt_of_lt_of_le hlt h3) (lt_irrefl x)
      · constructor
        · intro h; exact absurd h (by decide)
        · rintro h; exact Option.noConfusion h
    · rw [if_neg h4]
      by_cases h3 : (3 : ℚ) ≤ x
      · rw [if_pos h3]
        refine ⟨?_, ⟨fun _ => ⟨x, rfl, h3, not_le.mp h4⟩, fun _ => rfl⟩, ?_, ?_⟩
        · constructor
          · intro h; exact absurd h (by decide)
          · rintro ⟨y, rfl, hy⟩; exact absurd hy h4
        · constructor
          · intro h; exact absurd h (by decide)
          · rintro ⟨y, rfl, hy⟩; exact absurd h3 (not_le.mpr hy)
        · constructor
          · intro h; exact absurd h (by decide)
          · rintro h; exact Option.noConfusion h
      · rw [if_neg h3]
        refine ⟨?_, ?_, ⟨fun _ => ⟨x, rfl, not_le.mp h3⟩, fun _ => rfl⟩, ?_⟩
        · constructor
          · intro h; exact absurd h (by decide)
          · rintro ⟨y, rfl, hy⟩; exact absurd (le_trans (by norm_num) hy) h3
        · constructor
          · intro h; exact absurd h (by decide)
          · rintro ⟨y, rfl, hy, -⟩; exact absurd hy h3
        · constructor
          · intro h; exact absurd h (by decide)
          · rintro h; exact Option.noConfusion h

/-- C10: `save_reviews` on an empty batch returns False and leaves the
store untouched (the guard fires before any connection is opened); True is
returned exactly for a non-empty batch whose insert loop runs and commits
without a database error. -/
theorem C10_save_reviews_empty_is_failure (hid : Int) (db : List DbReviewRow)
    (e : Bool) :
    saveReviews hid [] db e = (false, db) ∧
    (∀ reviews, (saveReviews hid reviews db e).1 = true →
      reviews ≠ [] ∧ e = false) ∧
    (∀ reviews, reviews ≠ [] → e = false →
      saveReviews hid reviews db e =
        (true, reviews.foldl (fun acc r => insertReview hid acc r) db)) := by
  refine ⟨rfl, ?_, ?_⟩
  · intro reviews h
    cases reviews with
    | nil => simp [saveReviews] at h
    | cons a l =>
      cases e with
      | false => exact ⟨List.cons_ne_nil a l, rfl⟩
      | true => simp [saveReviews] at h
  · intro reviews hne he
    subst he
    cases reviews with
    | nil => exact absurd rfl hne
    | cons a l => simp [saveReviews]

/-- C3 counterexample: under the browser-automation strategy, four transport
failures followed by a success do NOT yield the success payload — the first
failure raises a selenium exception, which is not among the classes listed
in `retry_if_exception_type((requests.exceptions.RequestException,
ConnectionError))`, so tenacity re-raises at once: no retry, no backoff
delay, no payload.  The claim's "same retry/backoff/pacing contract holds
under both strategies" is false at this input. -/
theorem C3_selenium_not_retried_counterexample :
    fetchPageContent .seleniumBrowser
        (fun n => if n == 5 then some "page" else none) =
      (.error .seleniumException, []) ∧
    (fetchPageContent .seleniumBrowser
        (fun n => if n == 5 then some "page" else none)).1 ≠ .ok "page" := by
  constructor
  · rfl
  · intro h
    simp [fetchPageContent, runRetry, strategyAttempt, strategyExc,
      isRetryableExc] at h

/-- C3 as amended: the retry/backoff contract — up to 5 attempts, backoff
delays `max(4, min(2^n, 60))` after failed attempt `n`, success payload of
the first successful attempt — holds under the direct-HTTP strategy, whose
transport failures are of the retried requests exception class.  Four
failures then a success yield the payload after exactly the four delays
[4, 4, 8, 16]: non-decreasing, within the 4-second floor and 60-second cap.
Under the browser-automation strategy the same failures raise selenium
exceptions, which are not retried: the fetch fails on attempt 1 with no
backoff.  When every attempt fails, the direct strategy stops after 5
attempts (4 delays). -/
theorem C3_retry_backoff_direct_http (outcome : Nat → Option String)
    (s : String)
    (h1 : outcome 1 = none) (h2 : outcome 2 = none)
    (h3 : outcome 3 = none) (h4 : outcome 4 = none)
    (h5 : outcome 5 = some s) :
    fetchPageContent .directHttp outcome = (.ok s, [4, 4, 8, 16]) ∧
    fetchPageContent .seleniumBrowser outcome =
      (.error .seleniumException, []) ∧
    List.Chain' (· ≤ ·) [4, 4, 8, 16] ∧
    (∀ d ∈ [4, 4, 8, 16], 4 ≤ d ∧ d ≤ 60) ∧
    (∀ n, waitExponential 1 4 60 n = max 4 (min (2 ^ n) 60)) ∧
    (∀ f : Nat → Option String, (∀ n, f n = none) →
      fetchPageContent .directHttp f = (.error .requestException, [4, 4, 8, 16])) := by
  refine ⟨?_, ?_, by norm_num [List.chain'_cons], by decide, ?_, ?_⟩
  · simp [fetchPageContent, runRetry, strategyAttempt, strategyExc,
      isRetryableExc, waitExponential, h1, h2, h3, h4, h5]
  · simp [fetchPageContent, runRetry, strategyAttempt, strategyExc,
      isRetryableExc, h1]
  · intro n; simp [waitExponential]
  · intro f hf
    simp [fetchPageContent, runRetry, strategyAttempt, strategyExc,
      isRetryableExc, waitExponential, hf]

/-- C3 witness: the amended theorem at the concrete outcome sequence that
fails on attempts 1-4 and succeeds on attempt 5. -/
theorem C3_retry_backoff_direct_http_witness :
    fetchPageContent .directHttp
        (fun n => if n == 5 then some "page" else none) =
      (.ok "page", [4, 4, 8, 16]) :=
  (C3_retry_backoff_direct_http
    (fun n => if n == 5 then some "page" else none) "page"
    rfl rfl rfl rfl rfl).1

/-- C8: the region walker returns at most `maxHotels` URLs; every returned
URL is a relative href resolved against the fixed origin
"https://www.tripadvisor.com"; when no listing element matches any of the
three ordered locators it returns the empty list; and a failed fetch also
degrades to the empty list rather than an exception. -/
theorem C8_region_walker (fetch : String → Except PyExc (List Node))
    (regionUrl : String) (maxHotels : Nat) :
    (scrapeHotelsByRegion fetch regionUrl maxHotels).length ≤ maxHotels ∧
    (∀ u ∈ scrapeHotelsByRegion fetch regionUrl maxHotels,
      ∃ h, pyStartsWith h "/" = true ∧ u = "https://www.tripadvisor.com" ++ h) ∧
    (∀ soup, fetch regionUrl = .ok soup →
      findAllTagClass soup "a" "property_title" = [] →
      findAllTagClass soup "a" "review_count" = [] →
      (findAllTagClass soup "div" "listing_title").filterMap
        (fun d => findTag d.children "a") = [] →
      scrapeHotelsByRegion fetch regionUrl maxHotels = []) ∧
    (∀ e, fetch regionUrl = .error e →
      scrapeHotelsByRegion fetch regionUrl maxHotels = []) := by
  cases hf : fetch regionUrl with
  | error e =>
    refine ⟨by simp [scrapeHotelsByRegion, hf], ?_, ?_, ?_⟩
    · intro u hu; simp [scrapeHotelsByRegion, hf] at hu
    · intro soup hsoup; cases hsoup
    · intro e' _; simp [scrapeHotelsByRegion, hf]
  | ok soup =>
    refine ⟨?_, ?_, ?_, ?_⟩
    · simp only [scrapeHotelsByRegion, hf]
      exact le_trans (List.length_filterMap_le _ _) (List.length_take_le _ _)
    · intro u hu
      simp only [scrapeHotelsByRegion, hf] at hu
      obtain ⟨el, -, heq⟩ := List.mem_filterMap.mp hu
      revert heq
      cases el.data.href with
      | none => intro heq; cases heq
      | some h =>
        intro heq
        by_cases hsw : pyStartsWith h "/" = true
        · refine ⟨h, hsw, ?_⟩
          have hso : some ("https://www.tripadvisor.com" ++ h) = some u := by
            simpa [hsw] using heq
          exact (Option.some.inj hso).symm
        · simp [hsw] at heq
    · intro soup' hsoup h1 h2 h3
      cases hsoup
      simp [scrapeHotelsByRegion, hf, h1, h2, h3]
    · intro e he; cases he

/-- C9: `scrape_hotel` never lets an exception reach its caller.  A failed
first fetch, or an unparseable total-review count (the `int(...)` call),
is converted by the outer except into the degraded result `([], {})`.
When the first page succeeds, the result is exactly the first page's
reviews followed by the reviews of every successfully fetched pagination
page — a page whose fetch raises contributes `[]` and does not abort the
remaining pages, whose extracted reviews still appear in the result. -/
theorem C9_scrape_hotel_failure_isolation
    (fetch : String → Except PyExc (List Node)) (url : String)
    (maxPages : Option Nat) :
    (∀ e, fetch url = .error e → scrapeHotel fetch url maxPages = ([], none)) ∧
    (∀ soup, fetch url = .ok soup →
      pyParseInt (extractHotelInfo soup).total_reviews = none →
      scrapeHotel fetch url maxPages = ([], none)) ∧
    (∀ soup total, fetch url = .ok soup →
      pyParseInt (extractHotelInfo soup).total_reviews = some total →
      scrapeHotel fetch url maxPages =
        (extractReviews soup ++
          (paginationRest url total maxPages).flatMap (pageReviews fetch),
         some (extractHotelInfo soup)) ∧
      (∀ p ∈ paginationRest url total maxPages, ∀ e, fetch p = .error e →
        pageReviews fetch p = []) ∧
      (∀ p ∈ paginationRest url total maxPages, ∀ d, fetch p = .ok d →
        (extractReviews d).Sublist (scrapeHotel fetch url maxPages).1)) := by
  refine ⟨?_, ?_, ?_⟩
  · intro e he; simp [scrapeHotel, he]
  · intro soup hs hint; simp [scrapeHotel, hs, hint]
  · intro soup total hs hint
    have heq : scrapeHotel fetch url maxPages =
        (extractReviews soup ++
          (paginationRest url total maxPages).flatMap (pageReviews fetch),
         some (extractHotelInfo soup)) := by
      simp [scrapeHotel, hs, hint]
    refine ⟨heq, ?_, ?_⟩
    · intro p _ e hp; simp [pageReviews, hp]
    · intro p hp d hd
      have hpr : pageReviews fetch p = extractReviews d := by
        simp [pageReviews, hd]
      have hmem : extractReviews d ∈
          (paginationRest url total maxPages).map (pageReviews fetch) := by
        rw [← hpr]
        exact List.mem_map_of_mem _ hp
      have hsub : (extractReviews d).Sublist
          ((paginationRest url total maxPages).flatMap (pageReviews fetch)) := by
        rw [List.flatMap_def]
        exact List.sublist_flatten_of_mem hmem
      rw [heq]
      exact hsub.trans (List.sublist_append_right _ _)

/-- Every record surviving `dedupFirst` has a key outside the seen set. -/
theorem dedupFirst_key_not_seen :
    ∀ (l : List ConvReview) (seen) (r), r ∈ dedupFirst l seen →
      dedupKey r ∉ seen := by
  intro l
  induction l with
  | nil => intro seen r hr; simp [dedupFirst] at hr
  | cons a t ih =>
    intro seen r hr
    by_cases ha : dedupKey a ∈ seen
    · rw [dedupFirst, if_pos ha] at hr
      exact ih seen r hr
    · rw [dedupFirst, if_neg ha] at hr
      rcases List.mem_cons.mp hr with rfl | hr'
      · exact ha
      · intro hmem
        exact ih _ r hr' (List.mem_cons_of_mem _ hmem)

/-- The output of `drop_duplicates`: pairwise distinct dedup keys. -/
theorem dedupFirst_pairwise_keys :
    ∀ (l : List ConvReview) (seen),
      (dedupFirst l seen).Pairwise (fun a b => dedupKey a ≠ dedupKey b) := by
  intro l
  induction l with
  | nil => intro seen; simp [dedupFirst]
  | cons a t ih =>
    intro seen
    by_cases ha : dedupKey a ∈ seen
    · rw [dedupFirst, if_pos ha]; exact ih seen
    · rw [dedupFirst, if_neg ha]
      refine List.Pairwise.cons ?_ (ih _)
      intro b hb
      have := dedupFirst_key_not_seen t _ b hb
      intro hab
      exact this (hab ▸ List.mem_cons_self _ _)

/-- The scan `dedupFirst` only keeps input records. -/
theorem dedupFirst_subset :
    ∀ (l : List ConvReview) (seen), dedupFirst l seen ⊆ l := by
  intro l
  induction l with
  | nil => intro seen; simp [dedupFirst]
  | cons a t ih =>
    intro seen r hr
    by_cases ha : dedupKey a ∈ seen
    · rw [dedupFirst, if_pos ha] at hr
      exact List.mem_cons_of_mem _ (ih seen hr)
    · rw [dedupFirst, if_neg ha] at hr
      rcases List.mem_cons.mp hr with rfl | hr'
      · exact List.mem_cons_self _ _
      · exact List.mem_cons_of_mem _ (ih _ hr')

/-- First-wins semantics: a record whose key occurs at no earlier index (and not
in the seen set) survives the scan. -/
theorem dedupFirst_first_occurrence_survives :
    ∀ (l : List ConvReview) (seen) (i : ℕ) (hi : i < l.length),
      (∀ (j : ℕ) (hj : j < i),
        dedupKey (l.get ⟨j, lt_trans hj hi⟩) ≠ dedupKey (l.get ⟨i, hi⟩)) →
      dedupKey (l.get ⟨i, hi⟩) ∉ seen →
      l.get ⟨i, hi⟩ ∈ dedupFirst l seen := by
  intro l
  induction l with
  | nil => intro seen i hi; exact absurd hi (by simp)
  | cons a t ih =>
    intro seen i hi hfirst hseen
    match i with
    | 0 =>
      have ha : dedupKey a ∉ seen := hseen
      rw [dedupFirst, if_neg ha]
      exact List.mem_cons_self _ _
    | j + 1 =>
      have hj' : j < t.length := Nat.lt_of_succ_lt_succ hi
      by_cases ha : dedupKey a ∈ seen
      · rw [dedupFirst, if_pos ha]
        exact ih seen j hj'
          (fun k hk => hfirst (k + 1) (Nat.succ_lt_succ hk)) hseen
      · rw [dedupFirst, if_neg ha]
        refine List.mem_cons_of_mem _ ?_
        refine ih _ j hj'
          (fun k hk => hfirst (k + 1) (Nat.succ_lt_succ hk)) ?_
        intro hmem
        rcases List.mem_cons.mp hmem with heq | hmem'
        · exact hfirst 0 (Nat.succ_pos j) heq.symm
        · exact hseen hmem'

/-- The pipeline of `clean_data` factors as coercion, first-wins dedup, then fill — in
particular the empty guard changes nothing. -/
theorem cleanData_eq_dedup_fill (parseDate : String → Option Int)
    (parseNum : String → Option ℚ) (records : List Review) :
    cleanData parseDate parseNum records =
      (dedupFirst (records.map (convertRecord parseDate parseNum)) []).map
        fillRecord := by
  cases records with
  | nil => rfl
  | cons a t => rfl

/-- C5 as amended: the dedup of `clean_data` is computed on the
(reviewer, date, content) triples as valued after the coercions and BEFORE
the sentinel fill.  On those triples the guarantee holds: the kept records
have pairwise-distinct triples and the first occurrence of each triple
survives.  (The subsequent `fillna` can re-create a shared triple in the
output when a null field is filled to a value another record already
carries — see the counterexample.) -/
theorem C5_dedup_first_wins (parseDate : String → Option Int)
    (parseNum : String → Option ℚ) (records : List Review) :
    cleanData parseDate parseNum records =
      (dedupFirst (records.map (convertRecord parseDate parseNum)) []).map
        fillRecord ∧
    (dedupFirst (records.map (convertRecord parseDate parseNum)) []).Pairwise
      (fun a b => dedupKey a ≠ dedupKey b) ∧
    (∀ (i : ℕ)
      (hi : i < (records.map (convertRecord parseDate parseNum)).length),
      (∀ (j : ℕ) (hj : j < i),
        dedupKey ((records.map (convertRecord parseDate parseNum)).get
          ⟨j, lt_trans hj hi⟩) ≠
        dedupKey ((records.map (convertRecord parseDate parseNum)).get
          ⟨i, hi⟩)) →
      (records.map (convertRecord parseDate parseNum)).get ⟨i, hi⟩ ∈
        dedupFirst (records.map (convertRecord parseDate parseNum)) []) := by
  refine ⟨cleanData_eq_dedup_fill parseDate parseNum records,
    dedupFirst_pairwise_keys _ [], ?_⟩
  intro i hi hfirst
  exact dedupFirst_first_occurrence_survives _ [] i hi hfirst
    (List.not_mem_nil _)

/-- C5 counterexample: two input records with distinct pre-fill triples — a
null reviewer versus the literal "Anonymous" — both survive dedup, and the
`fillna` that runs AFTER `drop_duplicates` fills the null reviewer to
"Anonymous", so the returned record set contains two records sharing the
same (reviewer, date, content) triple, contradicting the claim as stated
over every record set. -/
theorem C5_fill_after_dedup_counterexample :
    cleanData (fun _ => some 1) (fun _ => none)
        [⟨none, some "c", none, some "d", none⟩,
         ⟨none, some "c", some "Anonymous", some "d", none⟩] =
      [⟨"No Title", "c", "Anonymous", some 1, 0⟩,
       ⟨"No Title", "c", "Anonymous", some 1, 0⟩] ∧
    (cleanData (fun _ => some 1) (fun _ => none)
        [⟨none, some "c", none, some "d", none⟩,
         ⟨none, some "c", some "Anonymous", some "d", none⟩]).map
      (fun c => (c.reviewer, c.date, c.content)) =
      [("Anonymous", some 1, "c"), ("Anonymous", some 1, "c")] := by
  constructor
  · rfl
  · rfl

/-- C6 as amended: after `clean_data` every rating is numeric — the
coercion `pd.to_numeric(..., errors="coerce")` turns an unparseable rating
text into null, but the `fillna({... "rating": 0.0})` that follows replaces
every null rating with 0.0, so the cleaned rating is the parsed number when
the text parses and 0.0 otherwise — never a raw string and never null. -/
theorem C6_rating_always_numeric (parseDate : String → Option Int)
    (parseNum : String → Option ℚ) (records : List Review) :
    ∀ c ∈ cleanData parseDate parseNum records,
      ∃ r ∈ records, c.rating = (r.rating.bind parseNum).getD 0 := by
  intro c hc
  rw [cleanData_eq_dedup_fill] at hc
  obtain ⟨d, hd, rfl⟩ := List.mem_map.mp hc
  have hsub := dedupFirst_subset _ [] hd
  obtain ⟨r, hr, rfl⟩ := List.mem_map.mp hsub
  exact ⟨r, hr, rfl⟩

/-- C6 witness: a record whose rating text no parser accepts cleans to the
0-filled rating. -/
theorem C6_rating_always_numeric_witness :
    ∃ r ∈ [(⟨some "t", some "b", some "rev", some "d",
        some "not a number"⟩ : Review)],
      (⟨"t", "b", "rev", some 1, 0⟩ : CleanedReview).rating =
        (r.rating.bind (fun _ => none)).getD 0 :=
  C6_rating_always_numeric (fun _ => some 1) (fun _ => none)
    [⟨some "t", some "b", some "rev", some "d", some "not a number"⟩]
    ⟨"t", "b", "rev", some 1, 0⟩ (by decide)

/-- C6 counterexample: the claim says an unparseable rating text is left
null after cleaning; in the code the null is immediately filled with 0.0,
so the cleaned record carries the numeric rating 0, not a null. -/
theorem C6_unparseable_rating_becomes_zero_counterexample :
    cleanData (fun _ => some 1) (fun _ => none)
        [⟨some "t", some "b", some "rev", some "d", some "not a number"⟩] =
      [⟨"t", "b", "rev", some 1, 0⟩] ∧
    (cleanData (fun _ => some 1) (fun _ => none)
        [⟨some "t", some "b", some "rev", some "d",
          some "not a number"⟩]).map (fun c => c.rating) = [0] := by
  constructor
  · rfl
  · rfl

/-- C7 counterexample: on a nonempty record set whose every rating is null,
`df["rating"].mean()` is NaN (modelled `none`), not the 0 the claim
requires for "no non-null ratings". -/
theorem C7_all_null_mean_counterexample :
    (generateSummary (fun _ => "2024-01")
        [⟨none, "Unknown", none⟩]).average_rating = none ∧
    (generateSummary (fun _ => "2024-01")
        [⟨none, "Unknown", none⟩]).average_rating ≠ some 0 := by
  constructor
  · rfl
  · intro h
    simp [generateSummary] at h

/-- C7 as amended: `generate_summary` returns the record count, the
arithmetic mean of the non-null ratings, and the per-label sentiment
counts; the empty record set short-circuits to the literal zeroed summary
(averageRating 0, empty dictionaries); but on a NONEMPTY set with no
non-null ratings the average is NaN (`none`), not 0.  The claim's example
holds: ratings [5, 5, 3, 1] give totalCount 4, averageRating 3.5 and
sentiment counts Positive 2, Neutral 1, Negative 1. -/
theorem C7_summary_statistics (fm : Int → String) :
    ((generateSummary fm []).total_reviews = 0 ∧
     (generateSummary fm []).average_rating = some 0 ∧
     (∀ l, (generateSummary fm []).sentiment_counts l = 0) ∧
     (∀ m, (generateSummary fm []).reviews_by_month m = 0)) ∧
    (∀ records : List SummaryRecord, records ≠ [] →
      (generateSummary fm records).total_reviews = records.length ∧
      (generateSummary fm records).average_rating =
        (if records.filterMap (fun r => r.rating) = [] then none
         else some ((records.filterMap (fun r => r.rating)).sum /
           (records.filterMap (fun r => r.rating)).length)) ∧
      (∀ l, (generateSummary fm records).sentiment_counts l =
        (records.map (fun r => r.sentiment)).count l)) ∧
    ((generateSummary fm
        [⟨some 5, getSentiment (some 5), none⟩,
         ⟨some 5, getSentiment (some 5), none⟩,
         ⟨some 3, getSentiment (some 3), none⟩,
         ⟨some 1, getSentiment (some 1), none⟩]).total_reviews = 4 ∧
     (generateSummary fm
        [⟨some 5, getSentiment (some 5), none⟩,
         ⟨some 5, getSentiment (some 5), none⟩,
         ⟨some 3, getSentiment (some 3), none⟩,
         ⟨some 1, getSentiment (some 1), none⟩]).average_rating =
       some (7 / 2) ∧
     (generateSummary fm
        [⟨some 5, getSentiment (some 5), none⟩,
         ⟨some 5, getSentiment (some 5), none⟩,
         ⟨some 3, getSentiment (some 3), none⟩,
         ⟨some 1, getSentiment (some 1), none⟩]).sentiment_counts
       "Positive" = 2 ∧
     (generateSummary fm
        [⟨some 5, getSentiment (some 5), none⟩,
         ⟨some 5, getSentiment (some 5), none⟩,
         ⟨some 3, getSentiment (some 3), none⟩,
         ⟨some 1, getSentiment (some 1), none⟩]).sentiment_counts
       "Neutral" = 1 ∧
     (generateSummary fm
        [⟨some 5, getSentiment (some 5), none⟩,
         ⟨some 5, getSentiment (some 5), none⟩,
         ⟨some 3, getSentiment (some 3), none⟩,
         ⟨some 1, getSentiment (some 1), none⟩]).sentiment_counts
       "Negative" = 1 ∧
     (generateSummary fm
        [⟨some 5, getSentiment (some 5), none⟩,
         ⟨some 5, getSentiment (some 5), none⟩,
         ⟨some 3, getSentiment (some 3), none⟩,
         ⟨some 1, getSentiment (some 1), none⟩]).sentiment_counts
       "Unknown" = 0) := by
  refine ⟨⟨rfl, rfl, fun l => rfl, fun m => rfl⟩, ?_, ?_⟩
  · intro records hne
    cases records with
    | nil => exact absurd rfl hne
    | cons a t =>
      refine ⟨rfl, ?_, fun l => rfl⟩
      simp only [generateSummary, List.isEmpty_cons, Bool.false_eq_true,
        if_false, List.isEmpty_iff]
  · refine ⟨rfl, ?_, ?_, ?_, ?_, ?_⟩
    · show (if ([5, 5, 3, 1] : List ℚ).isEmpty then none
        else some (([5, 5, 3, 1] : List ℚ).sum / ([5, 5, 3, 1] : List ℚ).length))
        = some (7 / 2)
      norm_num
    · rfl
    · rfl
    · rfl
    · rfl

/-- Floor division `Int.fdiv` on natural casts is natural division. -/
theorem natCast_fdiv_natCast (a b : Nat) :
    ((a : Int)).fdiv (b : Int) = ((a / b : Nat) : Int) := by
  cases a with
  | zero => simp [Int.fdiv]
  | succ n => rfl

/-- The offset list `range(rpp, num_pages*rpp, rpp)` has `num_pages - 1`
entries (none when `num_pages` is 0: Python's `range(10, 0, 10)` is
empty). -/
theorem pyRange_pagination_length (np rpp : Nat) (hr : 0 < rpp) :
    (pyRange rpp ((np : Int) * rpp) rpp).length = np - 1 := by
  obtain ⟨r, rfl⟩ := Nat.exists_eq_succ_of_ne_zero hr.ne'
  rw [pyRange, if_neg hr.ne']
  rw [List.length_map, List.length_range]
  have harg : ((np : Int) * (r+1 : Nat) - ((r+1 : Nat) : Int) +
      ((r+1 : Nat) : Int) - 1) = (np : Int) * ((r+1 : Nat) : Int) - 1 := by
    ring
  rw [harg]
  cases np with
  | zero =>
    have h1 : ((0 : Nat) : Int) * (((r+1 : Nat)) : Int) - 1 = -1 := by
      push_cast; ring
    rw [h1]
    have h0 : ((-1 : Int).fdiv (((r+1 : Nat)) : Int)) = -1 := by
      show Int.negSucc (0 / (r+1)) = -1
      rw [Nat.zero_div]
      decide
    rw [h0]
    rfl
  | succ k =>
    have hle : 1 ≤ (k+1)*(r+1) := Nat.one_le_iff_ne_zero.mpr
      (Nat.mul_ne_zero (Nat.succ_ne_zero k) (Nat.succ_ne_zero r))
    have hcast : ((k+1 : Nat) : Int) * (((r+1 : Nat)) : Int) - 1
        = (((k+1)*(r+1) - 1 : Nat) : Int) := by
      push_cast [Nat.cast_sub hle]
      ring
    rw [hcast, natCast_fdiv_natCast, Int.toNat_natCast]
    have hmul : (k+1)*(r+1) = k*(r+1) + (r+1) := Nat.succ_mul k (r+1)
    have hdiv : ((k+1)*(r+1) - 1) / (r+1) = k := by
      apply Nat.div_eq_of_lt_le
      · omega
      · omega
    show ((k+1)*(r+1) - 1) / (r + 1) = k + 1 - 1
    rw [hdiv]
    omega

/-- The `min(num_pages, 50)` of the source over a natural total-review
count, moved to natural numbers. -/
theorem numPages_cast (t rpp : Nat) (hr : 0 < rpp) :
    min (((t : Int) + rpp - 1).fdiv rpp) 50 =
      ((min ((t + rpp - 1) / rpp) 50 : Nat) : Int) := by
  have h1 : ((t : Int) + rpp - 1) = ((t + rpp - 1 : Nat) : Int) := by
    have hge : 1 ≤ t + rpp := by omega
    push_cast [Nat.cast_sub hge]
    ring
  rw [h1, natCast_fdiv_natCast]
  push_cast [Nat.cast_min]
  norm_num

/-- C2 as amended: for a base URL containing the "Reviews-" marker and a
non-negative total-review count `t`, the paginator returns exactly
`max 1 (min (ceil(t / pageSize)) 50)` page URLs — the claimed
`min(ceil(t / pageSize), 50)` except at `t = 0`, where the code still
returns the one-element list `[baseUrl]` — and the first element is the
base URL.  Without the marker it returns `[baseUrl]` without failing. -/
theorem C2_pagination_count (baseUrl : String) (t rpp : Nat) (hr : 0 < rpp) :
    ((pySplitOn baseUrl "Reviews-").length ≥ 2 →
      (generatePaginationUrls baseUrl t rpp).length =
        max 1 (min ((t + rpp - 1) / rpp) 50) ∧
      (generatePaginationUrls baseUrl t rpp).head? = some baseUrl) ∧
    (¬ (pySplitOn baseUrl "Reviews-").length ≥ 2 →
      generatePaginationUrls baseUrl t rpp = [baseUrl]) := by
  have hrne : rpp ≠ 0 := hr.ne'
  constructor
  · intro hm
    rw [generatePaginationUrls, if_neg hrne]
    simp only [if_pos hm]
    constructor
    · rw [List.length_cons, List.length_map]
      rw [numPages_cast t rpp hr, pyRange_pagination_length _ rpp hr]
      omega
    · rfl
  · intro hm
    rw [generatePaginationUrls, if_neg hrne]
    simp only [if_neg hm]

/-- C2 witness: 95 reviews at page size 10 give 10 URLs headed by the base
URL, 1000 reviews give the 50-URL cap, and a marker-less base URL gives the
one-element degradation. -/
theorem C2_pagination_count_witness :
    (generatePaginationUrls "https://x-Reviews-y" 95 10).length = 10 ∧
    (generatePaginationUrls "https://x-Reviews-y" 1000 10).length = 50 ∧
    (generatePaginationUrls "https://x-Reviews-y" 95 10).head? =
      some "https://x-Reviews-y" ∧
    generatePaginationUrls "https://no-marker" 95 10 = ["https://no-marker"] := by
  have h95 := C2_pagination_count "https://x-Reviews-y" 95 10 (by norm_num)
  have h1000 := C2_pagination_count "https://x-Reviews-y" 1000 10 (by norm_num)
  have hno := C2_pagination_count "https://no-marker" 95 10 (by norm_num)
  refine ⟨?_, ?_, ?_, ?_⟩
  · have h := (h95.1 (by decide)).1
    have hval : max 1 (min ((95 + 10 - 1) / 10) 50) = 10 := by decide
    rw [hval] at h
    exact h
  · have h := (h1000.1 (by decide)).1
    have hval : max 1 (min ((1000 + 10 - 1) / 10) 50) = 50 := by decide
    rw [hval] at h
    exact h
  · exact (h95.1 (by decide)).2
  · exact hno.2 (by decide)

/-- C2 counterexample: at totalReviews = 0 the code returns the one-element
list `[baseUrl]`, not the `min(ceil(0/10), 50) = 0` URLs the claim states
for every non-negative total. -/
theorem C2_zero_total_counterexample :
    (generatePaginationUrls "https://x-Reviews-y" 0 10).length = 1 ∧
    (generatePaginationUrls "https://x-Reviews-y" 0 10).length ≠
      min ((0 + 10 - 1) / 10) 50 := by
  constructor
  · rfl
  · decide
